import Mathlib

/-!
Shallow embedding of the two graspy tutorial notebooks:

* `nb1` — the latent-distribution two-graph hypothesis-test notebook
  (src/unnamed/part_000, "Latent Distribution Two-Graph Testing");
* `nb2` — the omnibus embedding notebook
  (src/docs/tutorials/embedding/Omnibus.ipynb, "Embedding Multiple Graphs").

Each notebook is a list of code cells; each code cell is a list of
statements.  A statement is an import, an IPython magic, an assignment of a
literal, an assignment of the result of a library call, a bare library call,
a `for`-loop over `range(n)` whose body is a list of calls, a `try/except`
block, or an `if` statement.  The last three constructors exist so that
their absence (or, for the single plotting loop, their presence) in the
notebooks is a checkable fact rather than one true by the shape of the type.

Python chained expressions `C(args).method(x)` (e.g.
`AdjacencySpectralEmbed(n_components=n_components).fit_transform(A1)`) are
modelled as a single call whose function name records constructor and
method, with the constructor arguments first.
-/

namespace GraspyNb

/-- Function (library entry point) called by a notebook statement.  Each
constructor corresponds to one distinct call form appearing in the source:

* `sbm` — `graspy.simulations.sbm(n, P)`;
* `aseFitTransform` — `AdjacencySpectralEmbed(n_components=k).fit_transform(A)`;
* `ldtNew` — `LatentDistributionTest(test, metric=m, n_bootstraps=b)`;
* `ldtFit` — `<ldt>.fit(A, B)` on a `LatentDistributionTest` object;
* `omniNew` — `OmnibusEmbed()`;
* `omniFitTransform` — `<embedder>.fit_transform([G1, G2])`;
* `heatmap`, `pairplot` — `graspy.plot` functions;
* `npArray` — `np.array(...)`; `npRandomSeed` — `np.random.seed(k)`;
* `pltSubplots`, `axHist`, `axAxvline`, `axSetTitle`, `axScatter`, `axPlot`,
  `axLegend`, `pltShow` — matplotlib calls;
* `printFn` — builtin `print`; `getitem` — subscription `Zhat[i]`. -/
inductive Fn where
  | sbm
  | aseFitTransform
  | ldtNew
  | ldtFit
  | omniNew
  | omniFitTransform
  | heatmap
  | pairplot
  | npArray
  | npRandomSeed
  | pltSubplots
  | axHist
  | axAxvline
  | axSetTitle
  | axScatter
  | axPlot
  | axLegend
  | pltShow
  | printFn
  | getitem
  deriving DecidableEq, Repr

/-- The library a function belongs to, read off the notebooks' imports. -/
def Fn.libOf : Fn → String
  | .sbm | .aseFitTransform | .ldtNew | .ldtFit
  | .omniNew | .omniFitTransform | .heatmap | .pairplot => "graspy"
  | .npArray | .npRandomSeed => "numpy"
  | .pltSubplots | .axHist | .axAxvline | .axSetTitle
  | .axScatter | .axPlot | .axLegend | .pltShow => "matplotlib"
  | .printFn | .getitem => "python"

/-- For a graspy call, the pre-built entry point it goes through (the name
imported from the library); `none` for calls into other libraries. -/
def Fn.entryPoint : Fn → Option String
  | .sbm => some "sbm"
  | .aseFitTransform => some "AdjacencySpectralEmbed"
  | .ldtNew => some "LatentDistributionTest"
  | .ldtFit => some "LatentDistributionTest"
  | .omniNew => some "OmnibusEmbed"
  | .omniFitTransform => some "OmnibusEmbed"
  | .heatmap => some "heatmap"
  | .pairplot => some "pairplot"
  | _ => none

/-- Whether a call to this function draws from numpy's global random
generator.  In the notebooks only `sbm` samples randomness (everything else
is deterministic given its inputs). -/
def Fn.isRandom : Fn → Bool
  | .sbm => true
  | _ => false

/-- Whether this function creates a thread or an operating-system process,
suspends, or cancels.  Every function the notebooks call is a synchronous
in-process library routine, so this is `false` in every case; the
case-by-case definition records that each call form was checked. -/
def Fn.spawns : Fn → Bool
  | .sbm => false
  | .aseFitTransform => false
  | .ldtNew => false
  | .ldtFit => false
  | .omniNew => false
  | .omniFitTransform => false
  | .heatmap => false
  | .pairplot => false
  | .npArray => false
  | .npRandomSeed => false
  | .pltSubplots => false
  | .axHist => false
  | .axAxvline => false
  | .axSetTitle => false
  | .axScatter => false
  | .axPlot => false
  | .axLegend => false
  | .pltShow => false
  | .printFn => false
  | .getitem => false

/-- Variables assigned in the notebooks.  `nComponents`..`X3` belong to the
hypothesis-test notebook, `n`..`iLoop` to the omnibus notebook.  `P2omni`
models the omnibus notebook's `P2` (distinct from `P2` of notebook 1);
`figAx`/`figAx2` stand for the tuple `fig, ax`. -/
inductive Vr where
  | nComponents
  | P
  | csize
  | A1
  | X1
  | A2
  | X2
  | ldtDcorr
  | ldtMgc
  | figAx
  | P2
  | A3
  | X3
  | n
  | P1
  | P2omni
  | G1
  | G2
  | embedder
  | Zhat
  | Xhat1
  | Xhat2
  | figAx2
  | iLoop
  deriving DecidableEq, Repr

/-- Attribute read from a fitted object or array: `p_value_`,
`null_distribution_`, `sample_T_statistic_`, `shape`. -/
inductive Fld where
  | pValue
  | nullDistribution
  | sampleTStatistic
  | shape
  deriving DecidableEq, Repr

/-- Literal values appearing in the notebooks.  The decimal literals of
the source are exact decimals; they are stored scaled by 1000 (per mille),
so `0.3` is `perMille 300`, `4.5` is `perMille 4500`, and a probability
matrix entry `0.7` is `700`.  `pmToQ` recovers the rational value. -/
inductive Lit where
  | nat (k : Nat)
  | perMille (k : Nat)
  | nats (l : List Nat)
  | mat (m : List (List Nat))
  | str (s : String)
  deriving DecidableEq, Repr

/-- The rational value of a per-mille-scaled decimal literal. -/
def pmToQ (k : Nat) : ℚ := (k : ℚ) / 1000

/-- An argument of a call: a variable, a literal, an attribute read
`x.f`, a Python list of variables `[G1, G2]`, or an indexed/sliced view of
a variable (the slice text is kept as a descriptive string, e.g. `":25, 0"`
for `Xhat1[:25, 0]`). -/
inductive Arg where
  | var (x : Vr)
  | lit (l : Lit)
  | attr (x : Vr) (f : Fld)
  | varList (xs : List Vr)
  | sliced (x : Vr) (d : String)
  deriving DecidableEq, Repr

/-- A call: a function together with its argument list (positional and
keyword arguments in source order; for fused constructor-method calls the
constructor arguments come first, then the method receiver/arguments). -/
structure Call where
  fn : Fn
  args : List Arg
  deriving DecidableEq, Repr

/-- A notebook statement. -/
inductive Stmt where
  | importStmt (module : String) (names : List String)
  | magic (m : String)
  | assignLit (x : Vr) (l : Lit)
  | assignCall (x : Vr) (c : Call)
  | exprCall (c : Call)
  | forLoop (x : Vr) (bound : Nat) (body : List Call)
  | tryExcept (body handler : List Call)
  | ifStmt (thenBranch elseBranch : List Call)
  deriving DecidableEq, Repr

end GraspyNb

namespace GraspyNb

/-! ### Notebook 1: latent distribution two-graph testing (src/unnamed/part_000) -/

/-- The block-probability matrix `P = np.array([[0.9, 0.6], [0.6, 0.9]])`
of notebook 1. -/
def nb1P : List (List Nat) := [[900, 600], [600, 900]]

/-- The block-probability matrix `P2 = np.array([[0.9, 0.4], [0.4, 0.9]])`
of notebook 1. -/
def nb1P2 : List (List Nat) := [[900, 400], [400, 900]]

/-- Code cell 1 of notebook 1: imports and `np.random.seed(8888)`. -/
def nb1cell1 : List Stmt :=
  [ .importStmt "numpy" ["np"],
    .importStmt "matplotlib.pyplot" ["plt"],
    .exprCall ⟨.npRandomSeed, [.lit (.nat 8888)]⟩,
    .importStmt "graspy.inference" ["LatentDistributionTest"],
    .importStmt "graspy.embed" ["AdjacencySpectralEmbed"],
    .importStmt "graspy.simulations" ["sbm", "rdpg"],
    .importStmt "graspy.utils" ["symmetrize"],
    .importStmt "graspy.plot" ["heatmap", "pairplot"],
    .magic "matplotlib inline" ]

/-- Code cell 2 of notebook 1: first SBM sample `A1`, its ASE embedding
`X1`, and plots.  `csize = [50] * 2` evaluates to `[50, 50]`. -/
def nb1cell2 : List Stmt :=
  [ .assignLit .nComponents (.nat 2),
    .assignCall .P ⟨.npArray, [.lit (.mat nb1P)]⟩,
    .assignLit .csize (.nats [50, 50]),
    .assignCall .A1 ⟨.sbm, [.var .csize, .var .P]⟩,
    .assignCall .X1 ⟨.aseFitTransform, [.var .nComponents, .var .A1]⟩,
    .exprCall ⟨.heatmap, [.var .A1, .lit (.str "2-block SBM adjacency matrix")]⟩,
    .exprCall ⟨.pairplot,
      [.var .X1, .lit (.str "2-block adjacency spectral embedding"), .lit (.perMille 4500)]⟩ ]

/-- Code cell 3 of notebook 1: second sample `A2`/`X2`, then `A1` and `X1`
are REASSIGNED with a fresh sample, then plots of `A2`/`X2`. -/
def nb1cell3 : List Stmt :=
  [ .assignCall .A2 ⟨.sbm, [.var .csize, .var .P]⟩,
    .assignCall .X2 ⟨.aseFitTransform, [.var .nComponents, .var .A2]⟩,
    .assignCall .A1 ⟨.sbm, [.var .csize, .var .P]⟩,
    .assignCall .X1 ⟨.aseFitTransform, [.var .nComponents, .var .A1]⟩,
    .exprCall ⟨.heatmap, [.var .A2, .lit (.str "2-block SBM adjacency matrix")]⟩,
    .exprCall ⟨.pairplot,
      [.var .X2, .lit (.str "2-block adjacency spectral embedding"), .lit (.perMille 4500)]⟩ ]

/-- Code cell 4 of notebook 1: dcorr latent-distribution test of `A1` vs
`A2`. -/
def nb1cell4 : List Stmt :=
  [ .assignCall .ldtDcorr
      ⟨.ldtNew, [.lit (.str "dcorr"), .lit (.str "euclidean"), .lit (.nat 200)]⟩,
    .exprCall ⟨.ldtFit, [.var .ldtDcorr, .var .A1, .var .A2]⟩ ]

/-- Code cell 5 of notebook 1: mgc latent-distribution test of `A1` vs
`A2`. -/
def nb1cell5 : List Stmt :=
  [ .assignCall .ldtMgc
      ⟨.ldtNew, [.lit (.str "mgc"), .lit (.str "euclidean"), .lit (.nat 200)]⟩,
    .exprCall ⟨.ldtFit, [.var .ldtMgc, .var .A1, .var .A2]⟩ ]

/-- Code cell 6 of notebook 1: print the two p-values. -/
def nb1cell6 : List Stmt :=
  [ .exprCall ⟨.printFn, [.attr .ldtDcorr .pValue, .attr .ldtMgc .pValue]⟩ ]

/-- Code cell 7 of notebook 1: plot null distributions, test statistics and
p-values of both fitted tests. -/
def nb1cell7 : List Stmt :=
  [ .assignCall .figAx ⟨.pltSubplots, [.lit (.nat 1), .lit (.nat 2)]⟩,
    .exprCall ⟨.axHist, [.attr .ldtDcorr .nullDistribution, .lit (.nat 50)]⟩,
    .exprCall ⟨.axAxvline, [.attr .ldtDcorr .sampleTStatistic, .lit (.str "r")]⟩,
    .exprCall ⟨.axSetTitle, [.attr .ldtDcorr .pValue, .lit (.nat 20)]⟩,
    .exprCall ⟨.axHist, [.attr .ldtMgc .nullDistribution, .lit (.nat 50)]⟩,
    .exprCall ⟨.axAxvline, [.attr .ldtMgc .sampleTStatistic, .lit (.str "r")]⟩,
    .exprCall ⟨.axSetTitle, [.attr .ldtMgc .pValue, .lit (.nat 20)]⟩,
    .exprCall ⟨.pltShow, []⟩ ]

/-- Code cell 8 of notebook 1: third SBM `A3` with different interblock
probability `P2`, its embedding `X3`, and plots. -/
def nb1cell8 : List Stmt :=
  [ .assignCall .P2 ⟨.npArray, [.lit (.mat nb1P2)]⟩,
    .assignCall .A3 ⟨.sbm, [.var .csize, .var .P2]⟩,
    .exprCall ⟨.heatmap, [.var .A3, .lit (.str "2-block SBM adjacency matrix A3")]⟩,
    .assignCall .X3 ⟨.aseFitTransform, [.var .nComponents, .var .A3]⟩,
    .exprCall ⟨.pairplot,
      [.var .X3, .lit (.str "2-block adjacency spectral embedding A3"), .lit (.perMille 4500)]⟩ ]

/-- Code cell 9 of notebook 1: dcorr test of `A1` vs `A3` (reassigns
`ldt_dcorr`). -/
def nb1cell9 : List Stmt :=
  [ .assignCall .ldtDcorr
      ⟨.ldtNew, [.lit (.str "dcorr"), .lit (.str "euclidean"), .lit (.nat 200)]⟩,
    .exprCall ⟨.ldtFit, [.var .ldtDcorr, .var .A1, .var .A3]⟩ ]

/-- Code cell 10 of notebook 1: mgc test of `A1` vs `A3`. -/
def nb1cell10 : List Stmt :=
  [ .assignCall .ldtMgc
      ⟨.ldtNew, [.lit (.str "mgc"), .lit (.str "euclidean"), .lit (.nat 200)]⟩,
    .exprCall ⟨.ldtFit, [.var .ldtMgc, .var .A1, .var .A3]⟩ ]

/-- Code cell 11 of notebook 1: print the two p-values again. -/
def nb1cell11 : List Stmt :=
  [ .exprCall ⟨.printFn, [.attr .ldtDcorr .pValue, .attr .ldtMgc .pValue]⟩ ]

/-- Code cell 12 of notebook 1: plot the new null distributions, test
statistics and p-values. -/
def nb1cell12 : List Stmt :=
  [ .assignCall .figAx ⟨.pltSubplots, [.lit (.nat 1), .lit (.nat 2)]⟩,
    .exprCall ⟨.axHist, [.attr .ldtDcorr .nullDistribution, .lit (.nat 50)]⟩,
    .exprCall ⟨.axAxvline, [.attr .ldtDcorr .sampleTStatistic, .lit (.str "r")]⟩,
    .exprCall ⟨.axSetTitle, [.attr .ldtDcorr .pValue, .lit (.nat 20)]⟩,
    .exprCall ⟨.axHist, [.attr .ldtMgc .nullDistribution, .lit (.nat 50)]⟩,
    .exprCall ⟨.axAxvline, [.attr .ldtMgc .sampleTStatistic, .lit (.str "r")]⟩,
    .exprCall ⟨.axSetTitle, [.attr .ldtMgc .pValue, .lit (.nat 20)]⟩,
    .exprCall ⟨.pltShow, []⟩ ]

/-- The code cells of notebook 1 in order (the final cell of the file is
empty). -/
def nb1cells : List (List Stmt) :=
  [nb1cell1, nb1cell2, nb1cell3, nb1cell4, nb1cell5, nb1cell6,
   nb1cell7, nb1cell8, nb1cell9, nb1cell10, nb1cell11, nb1cell12, []]

/-- Notebook 1 as a flat statement sequence (cells execute in order). -/
def nb1 : List Stmt := nb1cells.flatten

/-! ### Notebook 2: omnibus embedding (src/docs/tutorials/embedding/Omnibus.ipynb) -/

/-- The block-probability matrix `P1 = [[.3, .1], [.1, .7]]` actually used
by the omnibus notebook's code (cell-3). -/
def nb2P1 : List (List Nat) := [[300, 100], [100, 700]]

/-- The block-probability matrix `P2 = [[.3, .1], [.1, .3]]` actually used
by the omnibus notebook's code (cell-3). -/
def nb2P2 : List (List Nat) := [[300, 100], [100, 300]]

/-- The matrix the omnibus notebook's markdown (cell-2) STATES for `P_1`:
`[[0.2, 0.1], [0.1, 0.7]]`. -/
def nb2MarkdownP1 : List (List Nat) := [[200, 100], [100, 700]]

/-- The matrix the omnibus notebook's markdown (cell-2) STATES for `P_2`:
`[[0.2, 0.1], [0.1, 0.2]]`. -/
def nb2MarkdownP2 : List (List Nat) := [[200, 100], [100, 200]]

/-- Code cell-1 of notebook 2: imports. -/
def nb2cell1 : List Stmt :=
  [ .importStmt "graspy" [],
    .importStmt "matplotlib.pyplot" ["plt"],
    .importStmt "numpy" ["np"],
    .magic "matplotlib inline" ]

/-- Code cell-3 of notebook 2: block sizes, the two probability matrices,
`np.random.seed(8)`, and the two SBM samples. -/
def nb2cell3 : List Stmt :=
  [ .importStmt "graspy.simulations" ["sbm"],
    .assignLit .n (.nats [25, 25]),
    .assignLit .P1 (.mat nb2P1),
    .assignLit .P2omni (.mat nb2P2),
    .exprCall ⟨.npRandomSeed, [.lit (.nat 8)]⟩,
    .assignCall .G1 ⟨.sbm, [.var .n, .var .P1]⟩,
    .assignCall .G2 ⟨.sbm, [.var .n, .var .P2omni]⟩ ]

/-- Code cell-5 of notebook 2: heatmaps of the two sampled graphs. -/
def nb2cell5 : List Stmt :=
  [ .importStmt "graspy.plot" ["heatmap"],
    .exprCall ⟨.heatmap,
      [.var .G1, .lit (.nats [7, 7]), .lit (.str "Visualization of Graph 1")]⟩,
    .exprCall ⟨.heatmap,
      [.var .G2, .lit (.nats [7, 7]), .lit (.str "Visualization of Graph 2")]⟩ ]

/-- Code cell-7 of notebook 2: `embedder = OmnibusEmbed()` with no
arguments, the joint embedding `Zhat = embedder.fit_transform([G1, G2])`,
and `print(Zhat.shape)`. -/
def nb2cell7 : List Stmt :=
  [ .importStmt "graspy.embed" ["OmnibusEmbed"],
    .assignCall .embedder ⟨.omniNew, []⟩,
    .assignCall .Zhat ⟨.omniFitTransform, [.var .embedder, .varList [.G1, .G2]]⟩,
    .exprCall ⟨.printFn, [.attr .Zhat .shape]⟩ ]

/-- Code cell-9 of notebook 2: split `Zhat` into per-graph blocks, scatter
both embeddings, and draw a line between each of the 50 matched vertex
pairs in a `for i in range(50)` loop. -/
def nb2cell9 : List Stmt :=
  [ .assignCall .Xhat1 ⟨.getitem, [.var .Zhat, .lit (.nat 0)]⟩,
    .assignCall .Xhat2 ⟨.getitem, [.var .Zhat, .lit (.nat 1)]⟩,
    .assignCall .figAx2 ⟨.pltSubplots, [.lit (.nats [10, 10])]⟩,
    .exprCall ⟨.axScatter,
      [.sliced .Xhat1 ":25, 0", .sliced .Xhat1 ":25, 1",
       .lit (.str "s"), .lit (.str "blue"), .lit (.str "Graph 1, Block 1")]⟩,
    .exprCall ⟨.axScatter,
      [.sliced .Xhat1 "25:, 0", .sliced .Xhat1 "25:, 1",
       .lit (.str "o"), .lit (.str "blue"), .lit (.str "Graph 1, Block 2")]⟩,
    .exprCall ⟨.axScatter,
      [.sliced .Xhat2 ":25, 0", .sliced .Xhat2 ":25, 1",
       .lit (.str "s"), .lit (.str "red"), .lit (.str "Graph 2, Block 1")]⟩,
    .exprCall ⟨.axScatter,
      [.sliced .Xhat2 "25:, 0", .sliced .Xhat2 "25:, 1",
       .lit (.str "o"), .lit (.str "red"), .lit (.str "Graph 2, Block 2")]⟩,
    .exprCall ⟨.axLegend, []⟩,
    .forLoop .iLoop 50
      [⟨.axPlot, [.sliced .Xhat1 "i, 0 and i, 1", .sliced .Xhat2 "i, 0 and i, 1",
        .lit (.str "black"), .lit (.perMille 150)]⟩],
    .exprCall ⟨.axSetTitle,
      [.lit (.str "Latent Positions from Omnibus Embedding"), .lit (.nat 20)]⟩ ]

/-- The code cells of notebook 2 in order. -/
def nb2cells : List (List Stmt) :=
  [nb2cell1, nb2cell3, nb2cell5, nb2cell7, nb2cell9]

/-- Notebook 2 as a flat statement sequence. -/
def nb2 : List Stmt := nb2cells.flatten

/-! ### Static analysis over notebook programs -/

/-- The calls a statement makes (for a loop or a `try`/`if`, the calls of
its bodies). -/
def Stmt.calls : Stmt → List Call
  | .assignCall _ c => [c]
  | .exprCall c => [c]
  | .forLoop _ _ body => body
  | .tryExcept body handler => body ++ handler
  | .ifStmt thenBranch elseBranch => thenBranch ++ elseBranch
  | _ => []

/-- All calls of a program, in source order. -/
def callsOf (p : List Stmt) : List Call := (p.map Stmt.calls).flatten

/-- All functions a program calls, in source order, with repetitions. -/
def fnsOf (p : List Stmt) : List Fn := (callsOf p).map Call.fn

/-- The variable a statement assigns, if any. -/
def Stmt.assignsTo : Stmt → Option Vr
  | .assignLit x _ => some x
  | .assignCall x _ => some x
  | _ => none

/-- Whether an argument reads the variable `x`. -/
def Arg.reads (x : Vr) : Arg → Bool
  | .var y => y = x
  | .attr y _ => y = x
  | .varList ys => ys.contains x
  | .sliced y _ => y = x
  | .lit _ => false

/-- Whether a statement reads the variable `x` in any argument of any of
its calls. -/
def Stmt.reads (s : Stmt) (x : Vr) : Bool :=
  s.calls.any fun c => c.args.any (Arg.reads x)

/-- The indices (into the program) of the statements satisfying `pred`. -/
def positions (p : List Stmt) (pred : Stmt → Bool) : List Nat :=
  (List.range p.length).filter fun i => ((p.get? i).map pred).getD false

/-- Whether a statement calls the function `f`. -/
def Stmt.callsFn (s : Stmt) (f : Fn) : Bool := s.calls.any fun c => c.fn = f

/-- Index of the last assignment to `x` strictly before position `pos`:
the definition of `x` that reaches a use at `pos` in straight-line code. -/
def lastAssignBefore (p : List Stmt) (pos : Nat) (x : Vr) : Option Nat :=
  ((List.range pos).filter fun i =>
    ((p.get? i).map fun s => decide (s.assignsTo = some x)).getD false).getLast?

/-- The function whose result the reaching definition of `x` at `pos`
bound, if that definition is a call assignment. -/
def reachingFn (p : List Stmt) (pos : Nat) (x : Vr) : Option Fn :=
  (lastAssignBefore p pos x).bind fun i =>
    (p.get? i).bind fun s =>
      match s with
      | .assignCall _ c => some c.fn
      | _ => none

/-- Whether a statement renders or contributes to a plot (graspy plotting
helpers and matplotlib drawing calls). -/
def Stmt.isPlot (s : Stmt) : Bool :=
  s.calls.any fun c =>
    match c.fn with
    | .heatmap | .pairplot | .axHist | .axAxvline | .axSetTitle
    | .axScatter | .axPlot | .axLegend | .pltShow => true
    | _ => false

/-! ### Deterministic small-step semantics

For the determinism claim the notebooks are run under an explicit
semantics.  numpy's global RNG is modelled as a `Nat` stream position:
`np.random.seed(k)` sets it to `k`, and each call to a random function
(`sbm`) consumes the current position and advances it, tagging its result
with the position consumed.  Every other call is a pure function of its
evaluated arguments.  This is the standard model of a deterministic
library: a run's outcome is a function of the seed stream alone. -/

/-- A runtime value: library results are symbolic terms recording which
function produced them from which arguments; random draws additionally
record the RNG position they consumed. -/
inductive Val where
  | ofLit (l : Lit)
  | res (f : Fn) (args : List Val)
  | draw (rngPos : Nat) (f : Fn) (args : List Val)
  | fieldOf (v : Val) (f : Fld)
  | pyList (vs : List Val)
  | slicedOf (v : Val) (d : String)
  | unbound

/-- Interpreter state: RNG stream position and the environment (most
recent binding first). -/
structure St where
  rng : Nat
  env : List (Vr × Val)

/-- Look a variable up in the environment. -/
def St.lookup (s : St) (x : Vr) : Val :=
  ((s.env.find? fun p => p.1 = x).map Prod.snd).getD .unbound

/-- Evaluate an argument in a state. -/
def evalArg (s : St) : Arg → Val
  | .var x => s.lookup x
  | .lit l => .ofLit l
  | .attr x f => .fieldOf (s.lookup x) f
  | .varList xs => .pyList (xs.map s.lookup)
  | .sliced x d => .slicedOf (s.lookup x) d

/-- Evaluate a call in a state: `np.random.seed(k)` resets the stream,
a random function consumes and advances the stream, and every other
function is pure. -/
def evalCall (s : St) (c : Call) : Val × St :=
  match c.fn, c.args with
  | .npRandomSeed, [.lit (.nat k)] => (.res .npRandomSeed [], { s with rng := k })
  | f, args =>
      if f.isRandom then
        (.draw s.rng f (args.map (evalArg s)), { s with rng := s.rng + 1 })
      else
        (.res f (args.map (evalArg s)), s)

/-- Execute one statement. -/
def execStmt (s : St) : Stmt → St
  | .importStmt _ _ => s
  | .magic _ => s
  | .assignLit x l => { s with env := (x, .ofLit l) :: s.env }
  | .assignCall x c =>
      let (v, s') := evalCall s c
      { s' with env := (x, v) :: s'.env }
  | .exprCall c => (evalCall s c).2
  | .forLoop _ bound body =>
      (List.range bound).foldl (fun st _ => body.foldl (fun st' c => (evalCall st' c).2) st) s
  | .tryExcept body _ => body.foldl (fun st c => (evalCall st c).2) s
  | .ifStmt thenBranch _ => thenBranch.foldl (fun st c => (evalCall st c).2) s

/-- Run a program from a state. -/
def runProg (p : List Stmt) (s : St) : St := p.foldl execStmt s

/-! ### Claim-specific predicates -/

/-- The six pre-built graspy entry points the spec names. -/
def sixEntryPoints : List String :=
  ["AdjacencySpectralEmbed", "OmnibusEmbed", "LatentDistributionTest",
   "sbm", "heatmap", "pairplot"]

/-- Spec reading of claim C1's "run the test on the result of the embedding
step": at every `LatentDistributionTest.fit` call, both graph arguments are
variables whose reaching definition is an `AdjacencySpectralEmbed`
`fit_transform` result. -/
def fitArgsAreEmbeddings (p : List Stmt) : Bool :=
  (positions p fun s => s.callsFn .ldtFit).all fun f =>
    match p.get? f with
    | some (.exprCall ⟨.ldtFit, [_, .var x, .var y]⟩) =>
        decide (reachingFn p f x = some .aseFitTransform) &&
        decide (reachingFn p f y = some .aseFitTransform)
    | _ => false

/-- What the code actually does: at every `LatentDistributionTest.fit`
call, both graph arguments are variables whose reaching definition is an
`sbm` sample (an adjacency matrix, not its embedding). -/
def fitArgsAreSbm (p : List Stmt) : Bool :=
  (positions p fun s => s.callsFn .ldtFit).all fun f =>
    match p.get? f with
    | some (.exprCall ⟨.ldtFit, [_, .var x, .var y]⟩) =>
        decide (reachingFn p f x = some .sbm) && decide (reachingFn p f y = some .sbm)
    | _ => false

/-- Every graph variable handed to a `LatentDistributionTest.fit` call was
also embedded by an earlier `AdjacencySpectralEmbed.fit_transform` call
reading the SAME sample (same reaching definition): the test runs
downstream of the embedding step in program order. -/
def eachFitArgEmbeddedBefore (p : List Stmt) : Bool :=
  (positions p fun s => s.callsFn .ldtFit).all fun f =>
    match p.get? f with
    | some (.exprCall ⟨.ldtFit, [_, .var x, .var y]⟩) =>
        [x, y].all fun z =>
          (positions p fun s => s.callsFn .aseFitTransform && s.reads z).any fun e =>
            decide (e < f) && decide (lastAssignBefore p e z = lastAssignBefore p f z)
    | _ => false

/-- Every `LatentDistributionTest` construction passes an independence-test
statistic name, a distance metric name, and a bootstrap count. -/
def ldtParamShape (p : List Stmt) : Bool :=
  (callsOf p).all fun c =>
    !(decide (c.fn = Fn.ldtNew)) ||
      (match c.args with
       | [.lit (.str _), .lit (.str _), .lit (.nat _)] => true
       | _ => false)

/-- Whether an argument reads a fitted-test report attribute (`p_value_`,
`null_distribution_` or `sample_T_statistic_`) of the variable `x`. -/
def Arg.readsReport (x : Vr) : Arg → Bool
  | .attr y f =>
      decide (y = x) &&
        (decide (f = Fld.pValue) || decide (f = Fld.nullDistribution) ||
         decide (f = Fld.sampleTStatistic))
  | _ => false

/-- Positions of `LatentDistributionTest.fit` calls whose receiver is the
test object `x`. -/
def fitsOf (p : List Stmt) (x : Vr) : List Nat :=
  positions p fun s =>
    match s with
    | .exprCall ⟨.ldtFit, (.var y :: _)⟩ => decide (y = x)
    | _ => false

/-- Every statement that reads a report attribute of the test object `x`
occurs after some `fit` call on `x`. -/
def reportsAfterFit (p : List Stmt) (x : Vr) : Bool :=
  (List.range p.length).all fun i =>
    !(((p.get? i).map fun s => s.calls.any fun c => c.args.any (Arg.readsReport x)).getD false) ||
      (fitsOf p x).any fun j => decide (j < i)

/-- Spec reading of claim C3's "no plot is rendered before the testing
step has run": every plotting statement comes after some
`LatentDistributionTest.fit` call. -/
def noPlotBeforeTest (p : List Stmt) : Bool :=
  (positions p Stmt.isPlot).all fun q =>
    (positions p fun s => s.callsFn .ldtFit).any fun f => decide (f < q)

/-- Every `heatmap` call plots a variable whose reaching definition is an
`sbm` sample. -/
def heatmapsShowSbm (p : List Stmt) : Bool :=
  (positions p fun s => s.callsFn .heatmap).all fun h =>
    match p.get? h with
    | some (.exprCall ⟨_, (.var x :: _)⟩) => decide (reachingFn p h x = some .sbm)
    | _ => false

/-- Every `pairplot` call plots a variable whose reaching definition is an
`AdjacencySpectralEmbed.fit_transform` result. -/
def pairplotsShowAse (p : List Stmt) : Bool :=
  (positions p fun s => s.callsFn .pairplot).all fun h =>
    match p.get? h with
    | some (.exprCall ⟨_, (.var x :: _)⟩) => decide (reachingFn p h x = some .aseFitTransform)
    | _ => false

/-- A statement with no control structure: not a loop, not a `try/except`,
not an `if`. -/
def Stmt.isStraightLine : Stmt → Bool
  | .forLoop _ _ _ => false
  | .tryExcept _ _ => false
  | .ifStmt _ _ => false
  | _ => true

/-- Every cell of the notebook is a straight-line sequence. -/
def straightLineOnly (cells : List (List Stmt)) : Bool :=
  cells.all fun cell => cell.all Stmt.isStraightLine

/-- Whether a statement is an exception handler (`try/except`). -/
def Stmt.isHandler : Stmt → Bool
  | .tryExcept _ _ => true
  | _ => false

/-- Whether a statement is a branch (`if`). -/
def Stmt.isBranch : Stmt → Bool
  | .ifStmt _ _ => true
  | _ => false

/-- Entry `(i, j)` of a matrix literal (per-mille scaled), `0` outside
its shape. -/
def mEntry (m : List (List Nat)) (i j : Nat) : Nat :=
  (((m.get? i).getD []).get? j).getD 0

/-! ### Claims -/

/-- Claim C1, counterexample to the claim as stated.  The claim says every
latent-distribution test invocation runs "on the result of the embedding
step"; in the notebook the `fit` calls are passed the adjacency matrices
`A1`, `A2`, `A3` produced by `sbm`, not the embeddings `X1`, `X2`, `X3`:
at the first `fit` call (statement 23) both graph arguments reach `sbm`
definitions, not `AdjacencySpectralEmbed.fit_transform` results. -/
theorem C1_counterexample :
    fitArgsAreEmbeddings nb1 = false ∧
    nb1.get? 23 = some (.exprCall ⟨.ldtFit, [.var .ldtDcorr, .var .A1, .var .A2]⟩) ∧
    reachingFn nb1 23 .A1 = some .sbm ∧
    reachingFn nb1 23 .A2 = some .sbm ∧
    Fn.sbm ≠ Fn.aseFitTransform := by decide

/-- Claim C1, amended.  For each simulated SBM adjacency matrix the
pipeline is: simulate via `sbm`, embed via adjacency spectral embedding,
then run the two-sample latent-distribution test — parameterized by an
independence-test statistic, a distance metric and a bootstrap count — on
the ADJACENCY MATRICES themselves (the same samples the embedding step
read; the test object embeds internally), and the reported test statistic,
null distribution sample and p-value are read only after a `fit`; every
test invocation occurs downstream (later in program order) of the
adjacency-spectral-embedding step, but its inputs are the `sbm` outputs,
not the embedding outputs. -/
theorem C1_fit_on_adjacency_downstream_of_ase :
    fitArgsAreSbm nb1 = true ∧
    eachFitArgEmbeddedBefore nb1 = true ∧
    ldtParamShape nb1 = true ∧
    (positions nb1 fun s => s.callsFn .ldtFit) = [23, 25, 41, 43] ∧
    (positions nb1 fun s => s.callsFn .aseFitTransform) = [13, 17, 19, 38] ∧
    ((positions nb1 fun s => s.callsFn .ldtFit).all fun f =>
      (positions nb1 fun s => s.callsFn .aseFitTransform).any fun e => decide (e < f)) = true ∧
    reportsAfterFit nb1 .ldtDcorr = true ∧
    reportsAfterFit nb1 .ldtMgc = true := by decide

/-- Claim C2 (confirmed).  The omnibus notebook simulates two SBM
adjacency matrices with differing block-probability matrices (`nb2P1` and
`nb2P2`), jointly embeds them with a single `OmnibusEmbed()` call
constructed with no arguments (all defaults, so no embedding dimension is
passed), and visualizes the per-graph latent position estimates `Zhat[0]`
and `Zhat[1]` via scatter plots. -/
theorem C2_omnibus_single_default_call :
    (positions nb2 fun s => s.callsFn .omniNew) = [15] ∧
    nb2.get? 15 = some (.assignCall .embedder ⟨.omniNew, []⟩) ∧
    (positions nb2 fun s => s.callsFn .omniFitTransform) = [16] ∧
    nb2.get? 16 = some
      (.assignCall .Zhat ⟨.omniFitTransform, [.var .embedder, .varList [.G1, .G2]]⟩) ∧
    reachingFn nb2 16 .embedder = some .omniNew ∧
    reachingFn nb2 16 .G1 = some .sbm ∧
    reachingFn nb2 16 .G2 = some .sbm ∧
    nb2.get? 9 = some (.assignCall .G1 ⟨.sbm, [.var .n, .var .P1]⟩) ∧
    nb2.get? 10 = some (.assignCall .G2 ⟨.sbm, [.var .n, .var .P2omni]⟩) ∧
    lastAssignBefore nb2 9 .P1 = some 6 ∧
    nb2.get? 6 = some (.assignLit .P1 (.mat nb2P1)) ∧
    lastAssignBefore nb2 10 .P2omni = some 7 ∧
    nb2.get? 7 = some (.assignLit .P2omni (.mat nb2P2)) ∧
    nb2P1 ≠ nb2P2 ∧
    nb2.get? 18 = some (.assignCall .Xhat1 ⟨.getitem, [.var .Zhat, .lit (.nat 0)]⟩) ∧
    nb2.get? 19 = some (.assignCall .Xhat2 ⟨.getitem, [.var .Zhat, .lit (.nat 1)]⟩) ∧
    reachingFn nb2 18 .Zhat = some .omniFitTransform ∧
    reachingFn nb2 19 .Zhat = some .omniFitTransform ∧
    (positions nb2 fun s => s.callsFn .axScatter && s.reads .Xhat1) = [21, 22] ∧
    (positions nb2 fun s => s.callsFn .axScatter && s.reads .Xhat2) = [23, 24] ∧
    reachingFn nb2 21 .Xhat1 = some .getitem ∧
    reachingFn nb2 23 .Xhat2 = some .getitem := by decide

/-- Claim C3, counterexample to the claim as stated.  The claim says no
plot is rendered before the testing step has run, but in the
hypothesis-test notebook `heatmap(A1, ...)` (statement 14) renders before
the first `LatentDistributionTest.fit` (statement 23); and the omnibus
notebook renders plots while containing no testing call at all. -/
theorem C3_counterexample :
    noPlotBeforeTest nb1 = false ∧
    nb1.get? 14 = some
      (.exprCall ⟨.heatmap, [.var .A1, .lit (.str "2-block SBM adjacency matrix")]⟩) ∧
    (positions nb1 fun s => s.callsFn .ldtFit) = [23, 25, 41, 43] ∧
    (14 : Nat) < 23 ∧
    noPlotBeforeTest nb2 = false ∧
    (positions nb2 fun s => s.callsFn .ldtFit) = [] ∧
    (positions nb2 Stmt.isPlot) ≠ [] := by decide

/-- Claim C3, amended.  The control and data flow of each notebook is a
linear sequence per data object: every `heatmap` plots a graph just
simulated by `sbm`, every `pairplot` plots an embedding produced by
adjacency spectral embedding, every graph handed to a test was embedded
beforehand, and every plot displaying test results (null distribution,
test statistic, p-value) renders only after the corresponding `fit`; but
plots of the simulated graphs and of the embeddings are rendered BEFORE
the testing step, and the omnibus notebook has no testing step at all. -/
theorem C3_linear_flow_plots :
    heatmapsShowSbm nb1 = true ∧
    pairplotsShowAse nb1 = true ∧
    heatmapsShowSbm nb2 = true ∧
    eachFitArgEmbeddedBefore nb1 = true ∧
    reportsAfterFit nb1 .ldtDcorr = true ∧
    reportsAfterFit nb1 .ldtMgc = true ∧
    (positions nb2 fun s => s.callsFn .ldtFit) = [] := by decide

/-- Claim C4 (confirmed).  Every call either notebook makes into graspy
goes through one of the six pre-built entry points
`AdjacencySpectralEmbed`, `OmnibusEmbed`, `LatentDistributionTest`, `sbm`,
`heatmap`, `pairplot`; the graspy calls of the two notebooks are exactly
the enumerated sequences below (`rdpg` and `symmetrize` are imported by
notebook 1 but never called). -/
theorem C4_only_six_entry_points :
    (((callsOf nb1 ++ callsOf nb2).filter fun c => c.fn.libOf = "graspy").all
      fun c => decide ((c.fn.entryPoint.getD "") ∈ sixEntryPoints)) = true ∧
    ((fnsOf nb1).filter fun f => f.libOf = "graspy") =
      [.sbm, .aseFitTransform, .heatmap, .pairplot,
       .sbm, .aseFitTransform, .sbm, .aseFitTransform, .heatmap, .pairplot,
       .ldtNew, .ldtFit, .ldtNew, .ldtFit,
       .sbm, .heatmap, .aseFitTransform, .pairplot,
       .ldtNew, .ldtFit, .ldtNew, .ldtFit] ∧
    ((fnsOf nb2).filter fun f => f.libOf = "graspy") =
      [.sbm, .sbm, .heatmap, .heatmap, .omniNew, .omniFitTransform] := by decide

/-- Claim C5, counterexample to the claim as stated.  The claim says no
cell contains any loop, but code cell-9 of the omnibus notebook contains
`for i in range(50): ax.plot(...)` (statement 26 of the flattened
program). -/
theorem C5_counterexample :
    straightLineOnly nb2cells = false ∧
    nb2.get? 26 = some (.forLoop .iLoop 50
      [⟨.axPlot, [.sliced .Xhat1 "i, 0 and i, 1", .sliced .Xhat2 "i, 0 and i, 1",
        .lit (.str "black"), .lit (.perMille 150)]⟩]) := by decide

/-- Claim C5, amended.  The hypothesis-test notebook is entirely
straight-line; the omnibus notebook is straight-line except for a single
`for`-loop over `range(50)` whose body is one matplotlib plotting call
(drawing lines between matched points); neither notebook contains a
branch, a `try/except`, or any other control structure. -/
theorem C5_straight_line_except_plot_loop :
    straightLineOnly nb1cells = true ∧
    (positions nb2 fun s => ! s.isStraightLine) = [26] ∧
    ((nb2.get? 26).map fun s =>
      match s with
      | .forLoop _ bound body =>
          decide (bound = 50) && decide (body.length = 1) &&
            (body.all fun c => decide (c.fn = Fn.axPlot))
      | _ => false) = some true ∧
    (nb1.any Stmt.isHandler) = false ∧ (nb2.any Stmt.isHandler) = false ∧
    (nb1.any Stmt.isBranch) = false ∧ (nb2.any Stmt.isBranch) = false := by decide

/-- Claim C6 (confirmed).  Neither notebook contains a `try/except`
statement, so no exception handler is installed anywhere: an exception
raised by a library call leaves the raising cell unmodified, and no
statement exists that could repair state or attempt recovery. -/
theorem C6_no_exception_handlers :
    (nb1.any Stmt.isHandler) = false ∧
    (nb2.any Stmt.isHandler) = false ∧
    (nb1cells.all fun cell => cell.all fun s => ! s.isHandler) = true ∧
    (nb2cells.all fun cell => cell.all fun s => ! s.isHandler) = true := by decide

/-- Claim C7 (confirmed).  Every function either notebook calls is a
synchronous, in-process library routine — none creates a thread or a
process, suspends, or cancels (`Fn.spawns` is false for every called
function) — and the semantics of a notebook run is a sequential left fold
of a pure state transformer over the statement list: a single-threaded,
synchronous, linear run over in-memory values. -/
theorem C7_sequential_single_threaded :
    ((fnsOf nb1 ++ fnsOf nb2).all fun f => ! f.spawns) = true ∧
    (∀ p : List Stmt, ∀ s : St, runProg p s = p.foldl execStmt s) :=
  ⟨by decide, fun _ _ => rfl⟩

/-- Claim C7, witness: the sequential-fold component applied to the
omnibus notebook at a concrete starting state. -/
theorem C7_sequential_single_threaded_witness :
    runProg nb2 ⟨0, []⟩ = nb2.foldl execStmt ⟨0, []⟩ :=
  C7_sequential_single_threaded.2 nb2 ⟨0, []⟩

/-- Claim C8 (confirmed).  The omnibus notebook's code passes
`P1 = [[0.3, 0.1], [0.1, 0.7]]` and `P2 = [[0.3, 0.1], [0.1, 0.3]]` to
`sbm`: both are 2×2, they differ only in the bottom-right (second-block
within-block) entry, both are symmetric, both graphs use block sizes
`n = [25, 25]` (50 vertices), and the matrices stated in the notebook's
markdown (with 0.2 entries) are not the ones the code uses. -/
theorem C8_block_probability_matrices :
    (nb2.get? 6 = some (.assignLit .P1 (.mat nb2P1)) ∧
     nb2.get? 7 = some (.assignLit .P2omni (.mat nb2P2)) ∧
     lastAssignBefore nb2 9 .P1 = some 6 ∧
     lastAssignBefore nb2 10 .P2omni = some 7 ∧
     nb2P1 = [[300, 100], [100, 700]] ∧
     nb2P2 = [[300, 100], [100, 300]] ∧
     mEntry nb2P1 0 0 = mEntry nb2P2 0 0 ∧
     mEntry nb2P1 0 1 = mEntry nb2P2 0 1 ∧
     mEntry nb2P1 1 0 = mEntry nb2P2 1 0 ∧
     mEntry nb2P1 1 1 ≠ mEntry nb2P2 1 1 ∧
     nb2P1.length = 2 ∧ nb2P2.length = 2 ∧
     (nb2P1.all fun r => r.length = 2) = true ∧
     (nb2P2.all fun r => r.length = 2) = true ∧
     nb2P1.transpose = nb2P1 ∧
     nb2P2.transpose = nb2P2 ∧
     nb2.get? 5 = some (.assignLit .n (.nats [25, 25])) ∧
     lastAssignBefore nb2 9 .n = some 5 ∧
     lastAssignBefore nb2 10 .n = some 5 ∧
     ([25, 25] : List Nat).sum = 50 ∧
     nb2MarkdownP1 ≠ nb2P1 ∧
     nb2MarkdownP2 ≠ nb2P2) ∧
    (nb2P1.map (List.map pmToQ) = [[3/10, 1/10], [1/10, 7/10]] ∧
     nb2P2.map (List.map pmToQ) = [[3/10, 1/10], [1/10, 3/10]] ∧
     pmToQ (mEntry nb2MarkdownP1 0 0) = 2/10 ∧
     pmToQ (mEntry nb2P1 0 0) = 3/10 ∧
     pmToQ (mEntry nb2MarkdownP1 0 0) ≠ pmToQ (mEntry nb2P1 0 0)) := by
  constructor
  · decide
  · refine ⟨?_, ?_, ?_, ?_, ?_⟩ <;>
      norm_num [nb2P1, nb2P2, nb2MarkdownP1, mEntry, pmToQ]

/-- Claim C9 (confirmed).  In the hypothesis-test notebook `A1` (and
`X1`) are assigned twice — at statements 12/13 and again at 18/19, after
`A2` is sampled at 16 — and the definition of `A1` reaching every
`LatentDistributionTest.fit` call (statements 23, 25, 41, 43, each with
`A1` as first graph argument) is the SECOND assignment (statement 18);
the first sample of `A1` (statement 12) reaches only its embedding
(statement 13) and the first `heatmap` (statement 14), never a test. -/
theorem C9_A1_overwritten_before_tests :
    (positions nb1 fun s => decide (s.assignsTo = some .A1)) = [12, 18] ∧
    (positions nb1 fun s => decide (s.assignsTo = some .X1)) = [13, 19] ∧
    nb1.get? 12 = some (.assignCall .A1 ⟨.sbm, [.var .csize, .var .P]⟩) ∧
    nb1.get? 18 = some (.assignCall .A1 ⟨.sbm, [.var .csize, .var .P]⟩) ∧
    nb1.get? 16 = some (.assignCall .A2 ⟨.sbm, [.var .csize, .var .P]⟩) ∧
    (positions nb1 fun s => s.callsFn .ldtFit) = [23, 25, 41, 43] ∧
    ((positions nb1 fun s => s.callsFn .ldtFit).all fun f =>
      decide (lastAssignBefore nb1 f .A1 = some 18)) = true ∧
    ((positions nb1 fun s => s.callsFn .ldtFit).all fun f =>
      match nb1.get? f with
      | some (.exprCall ⟨_, (_ :: .var x :: _)⟩) => decide (x = Vr.A1)
      | _ => false) = true ∧
    ((positions nb1 fun s => s.reads .A1).filter fun u =>
      decide (lastAssignBefore nb1 u .A1 = some 12)) = [13, 14] ∧
    nb1.get? 13 = some
      (.assignCall .X1 ⟨.aseFitTransform, [.var .nComponents, .var .A1]⟩) ∧
    nb1.get? 14 = some
      (.exprCall ⟨.heatmap, [.var .A1, .lit (.str "2-block SBM adjacency matrix")]⟩) ∧
    ((nb1.get? 13).map fun s => s.callsFn .ldtFit) = some false ∧
    ((nb1.get? 14).map fun s => s.callsFn .ldtFit) = some false := by decide

/-- Claim C10 (confirmed).  Each notebook calls `np.random.seed` exactly
once, with the fixed constant 8888 (hypothesis-test notebook, statement 2)
resp. 8 (omnibus notebook, statement 8), and that call precedes every
`sbm` sampling call; consequently, under the deterministic semantics
`runProg`, two runs of the same notebook from ARBITRARY initial RNG
states produce identical final states — identical adjacency-matrix values
and identical downstream results. -/
theorem C10_seeded_determinism :
    (∀ s1 s2 : Nat, runProg nb1 ⟨s1, []⟩ = runProg nb1 ⟨s2, []⟩) ∧
    (∀ s1 s2 : Nat, runProg nb2 ⟨s1, []⟩ = runProg nb2 ⟨s2, []⟩) ∧
    (positions nb1 fun s => s.callsFn .npRandomSeed) = [2] ∧
    nb1.get? 2 = some (.exprCall ⟨.npRandomSeed, [.lit (.nat 8888)]⟩) ∧
    (positions nb2 fun s => s.callsFn .npRandomSeed) = [8] ∧
    nb2.get? 8 = some (.exprCall ⟨.npRandomSeed, [.lit (.nat 8)]⟩) ∧
    ((positions nb1 fun s => s.callsFn .sbm).all fun i => decide (2 < i)) = true ∧
    ((positions nb2 fun s => s.callsFn .sbm).all fun i => decide (8 < i)) = true :=
  ⟨fun _ _ => rfl, fun _ _ => rfl, by decide, by decide, by decide, by decide,
   by decide, by decide⟩

/-- Claim C10, witness: the two-run property of the hypothesis-test
notebook applied at the concrete initial RNG states 0 and 123456. -/
theorem C10_seeded_determinism_witness :
    runProg nb1 ⟨0, []⟩ = runProg nb1 ⟨123456, []⟩ :=
  C10_seeded_determinism.1 0 123456

end GraspyNb
